import Mathlib

/-!
Verification of the `image-mcp` tool server (`src/mcp.mjs`, rich variant, and
the minimal variant server file) against its natural-language specification.

The JavaScript source is shallowly embedded: JS objects holding tool-call
arguments become association lists of strings, JS string operations
(`startsWith`, `trim`, `Array.join`) are re-implemented over `String.data`
so that everything reduces under `decide`, filesystem and subprocess
behaviour is made explicit through outcome oracles (`FsEnv`,
`ProcBehavior`) and an effect trace, and the event-driven subprocess
lifecycle (`data` / `close` / `error` handlers, the watchdog `setTimeout`
and the progress `setInterval`) becomes a step machine over an event list.
-/

namespace ImageMcp

/-! ## JS string primitives, re-implemented executably -/

/-- JS truthiness of an optional string value: `undefined` and `""` are falsy. -/
def truthy : Option String → Bool
  | none => false
  | some s => s ≠ ""

/-- JS `s.startsWith(p)`. -/
def jsStartsWith (s p : String) : Bool :=
  p.data.isPrefixOf s.data

/-- Whitespace trimming at the char-list level. -/
def trimChars (l : List Char) : List Char :=
  ((l.dropWhile Char.isWhitespace).reverse.dropWhile Char.isWhitespace).reverse

/-- JS `s.trim()`. -/
def jsTrim (s : String) : String :=
  ⟨trimChars s.data⟩

/-- JS `array.join(" ")`. -/
def joinSpace : List String → String
  | [] => ""
  | [s] => s
  | s :: rest => s ++ " " ++ joinSpace rest

/-- Concatenation of stream chunks, as `stdout += data.toString()` accumulates them. -/
def concatChunks (l : List String) : String :=
  l.foldl (· ++ ·) ""

/-! ## Tool-call arguments: a JS object as a string-keyed association list -/

/-- A JS arguments object, observed through key lookup. -/
def Args := List (String × String)

instance : DecidableEq Args := by
  unfold Args
  infer_instance

instance : Repr Args := inferInstanceAs (Repr (List (String × String)))

/-- Property lookup on an arguments object. -/
def getArg (a : Args) (k : String) : Option String :=
  (a.find? (fun p => p.1 == k)).map (·.2)

/-- The spread-update `{...a, k: v}`: every key keeps its value except `k`,
which now maps to `v`. -/
def setArg (a : Args) (k v : String) : Args :=
  a.filter (fun p => p.1 != k) ++ [(k, v)]

/-! ## Protocol-level error and result types -/

inductive McpErrorCode where
  | invalidParams
  | methodNotFound
  | internalError
deriving DecidableEq, Repr

structure McpError where
  code : McpErrorCode
  message : String
deriving DecidableEq, Repr

/-- Outcome of one tool call: a text success payload or a typed error. -/
inductive CallResult where
  | success (text : String)
  | failure (err : McpError)
deriving DecidableEq, Repr

/-! ## The call dispatcher (`CallToolRequestSchema` handler)

Routing only: it either forwards (possibly transformed) arguments to the
generation handler, invokes the pizza-test handler, or rejects the name. -/

inductive Routed where
  | generate (args : Args)
  | pizza
  | unknown (name : String)
deriving DecidableEq, Repr

/-- The rich variant's dispatch over tool names, from `setupToolHandlers`. -/
def routeCall (name : String) (args : Args) : Routed :=
  if name = "generate_ai_image" then .generate args
  else if name = "square_image" then .generate (setArg args "size" "1024x1024")
  else if name = "landscape_image" then .generate (setArg args "size" "1536x1024")
  else if name = "portrait_image" then .generate (setArg args "size" "1024x1536")
  else if name = "pizza-test" then .pizza
  else .unknown name

/-! ## Command-line argument construction (`executeAIImageCommand`) -/

/-- The parameter object handed to the rich variant's `executeAIImageCommand`. -/
structure GenParams where
  prompt : String
  size : String
  model : Option String
  output : Option String
  output_dir : Option String
deriving DecidableEq, Repr

/-- The parameter object handed to the minimal variant's `executeAIImageCommand`
(it carries `style` instead of `output_dir`). -/
structure GenParamsMin where
  prompt : String
  size : String
  model : Option String
  output : Option String
  style : Option String
deriving DecidableEq, Repr

/-- `apiKey = process.env.OPENAI_API_KEY || process.env.REPLICATE_API_TOKEN`:
JS `||` falls through on falsy values (unset or empty). -/
def effectiveApiKey (openaiKey replicateToken : Option String) : Option String :=
  if truthy openaiKey then openaiKey
  else if truthy replicateToken then replicateToken
  else none

/-- The rich variant's argument list: base subcommand, `--prompt`, `--size`,
then each optional flag pushed only when its value is truthy. -/
def buildArgsRich (p : GenParams) (apiKey : Option String) : List String :=
  ["ai-image", "generate", "--prompt", p.prompt, "--size", p.size]
    ++ (if truthy p.model then ["--model", p.model.getD ""] else [])
    ++ (if truthy p.output then ["--output", p.output.getD ""] else [])
    ++ (if truthy p.output_dir then ["--output-dir", p.output_dir.getD ""] else [])
    ++ (if truthy apiKey then ["--api-key", apiKey.getD ""] else [])

/-- The minimal variant's argument list: `--style` in place of `--output-dir`,
and no `--api-key`. -/
def buildArgsMin (p : GenParamsMin) : List String :=
  ["ai-image", "generate", "--prompt", p.prompt, "--size", p.size]
    ++ (if truthy p.model then ["--model", p.model.getD ""] else [])
    ++ (if truthy p.output then ["--output", p.output.getD ""] else [])
    ++ (if truthy p.style then ["--style", p.style.getD ""] else [])

/-- The logged command line: `npx ${args.join(" ")}`. -/
def commandLine (args : List String) : String :=
  "npx " ++ joinSpace args

/-! ## Subprocess lifecycle as an event-step machine

The promise body registers handlers for `data` on both streams, two `close`
handlers, an `error` handler, a watchdog `setTimeout` and a progress
`setInterval`. We model the state those handlers touch and fold the handlers
over the events the environment delivers. -/

structure ProcSuccess where
  command : String
  stdout : String
  stderr : String
  exitCode : Option Int
deriving DecidableEq, Repr

inductive ProcError where
  /-- `close` with a non-zero (or null) code: carries the raw accumulated streams. -/
  | execFailed (code : Option Int) (stdout stderr : String)
  /-- the `error` event: spawn failure. -/
  | spawnFailed (msg : String)
  /-- the watchdog fired. -/
  | timedOut
deriving DecidableEq, Repr

inductive ProcOutcome where
  | ok (s : ProcSuccess)
  | fail (e : ProcError)
deriving DecidableEq, Repr

/-- Events delivered to the registered handlers. `close` carries the JS exit
code, which is `null` (here `none`) when the child was killed by a signal. -/
inductive PEvent where
  | dataOut (s : String)
  | dataErr (s : String)
  | close (code : Option Int)
  | spawnErr (msg : String)
  /-- the watchdog timer's callback runs (only possible while the timer is armed). -/
  | watchdog
deriving DecidableEq, Repr

structure RunState where
  /-- the promise: `none` while pending, fixed forever once settled. -/
  settled : Option ProcOutcome
  stdoutAcc : String
  stderrAcc : String
  intervalActive : Bool
  watchdogActive : Bool
  /-- signals sent to the child, in order. -/
  signals : List String
deriving DecidableEq, Repr

/-- `resolve` / `reject`: a settled promise ignores further settlement. -/
def settle (st : RunState) (r : ProcOutcome) : RunState :=
  if st.settled.isSome then st else { st with settled := some r }

/-- One event, processed by the handlers the source registers.

For `close` the two registered `close` handlers run in order: the first
clears the progress interval and resolves or rejects by exit code, the
second clears both the watchdog timeout and the interval. For `spawnErr`
the `error` handler clears only the progress interval before rejecting.
For `watchdog` the timeout callback clears the interval, sends SIGTERM and
rejects; a cleared (or already fired) timer does not run. -/
def step (command : String) (st : RunState) : PEvent → RunState
  | .dataOut s => { st with stdoutAcc := st.stdoutAcc ++ s }
  | .dataErr s => { st with stderrAcc := st.stderrAcc ++ s }
  | .close code =>
    let st1 :=
      if code = some 0 then
        settle st (.ok { command := command, stdout := jsTrim st.stdoutAcc,
                         stderr := jsTrim st.stderrAcc, exitCode := code })
      else
        settle st (.fail (.execFailed code st.stdoutAcc st.stderrAcc))
    { st1 with intervalActive := false, watchdogActive := false }
  | .spawnErr msg =>
    let st1 := settle st (.fail (.spawnFailed msg))
    { st1 with intervalActive := false }
  | .watchdog =>
    if st.watchdogActive then
      let st1 := settle st (.fail .timedOut)
      { st1 with intervalActive := false, watchdogActive := false,
                 signals := st.signals ++ ["SIGTERM"] }
    else st

/-- Initial state right after `spawn` returns. The rich variant starts the
progress interval; the minimal variant has none. -/
def initState (intervalStarted : Bool) : RunState :=
  { settled := none, stdoutAcc := "", stderrAcc := "",
    intervalActive := intervalStarted, watchdogActive := true, signals := [] }

def runEvents (command : String) (st : RunState) (evs : List PEvent) : RunState :=
  evs.foldl (step command) st

/-- How one subprocess run can behave, as seen by the handlers. -/
inductive ProcBehavior where
  /-- the child closes naturally at time `t` ms with the given exit code,
  after emitting the given stdout / stderr chunks. -/
  | closes (t : Nat) (code : Option Int) (outChunks errChunks : List String)
  /-- `spawn` fails; per the platform, a `close` event may or may not follow. -/
  | spawnFail (msg : String) (closeFollows : Bool)
  /-- the child never exits on its own. -/
  | hangs (outChunks errChunks : List String)
deriving DecidableEq, Repr

/-- The event sequence a behavior produces under a watchdog of `timeoutMs`
ms: a natural close before the deadline is delivered as-is and disarms the
watchdog; otherwise the watchdog fires at the deadline and the SIGTERM-killed
child later closes with a null code. -/
def traceOf (timeoutMs : Nat) : ProcBehavior → List PEvent
  | .closes t code outs errs =>
    let datas := outs.map PEvent.dataOut ++ errs.map PEvent.dataErr
    if t < timeoutMs then datas ++ [.close code]
    else datas ++ [.watchdog, .close none]
  | .spawnFail msg closeFollows =>
    if closeFollows then [.spawnErr msg, .close none] else [.spawnErr msg]
  | .hangs outs errs =>
    outs.map PEvent.dataOut ++ errs.map PEvent.dataErr ++ [.watchdog, .close none]

/-- Watchdog duration of the rich variant (ms). -/
def TIMEOUT_RICH : Nat := 300000

/-- Watchdog duration of the minimal variant (ms). -/
def TIMEOUT_MIN : Nat := 60000

/-- The rich variant's `executeAIImageCommand`: build the argument list,
spawn, then let the handlers consume the behavior's events. Returns the
final machine state. -/
def executeAIImageCommand (apiKey : Option String) (p : GenParams)
    (b : ProcBehavior) : RunState :=
  runEvents (commandLine (buildArgsRich p apiKey)) (initState true)
    (traceOf TIMEOUT_RICH b)

/-- The minimal variant's `executeAIImageCommand`: no api key, no progress
interval, 60 s watchdog. -/
def executeAIImageCommandMin (p : GenParamsMin) (b : ProcBehavior) : RunState :=
  runEvents (commandLine (buildArgsMin p)) (initState false)
    (traceOf TIMEOUT_MIN b)

/-! ## Rendering subprocess outcomes (`handleGenerateImage`'s two branches) -/

/-- JS string interpolation of the exit code (`null` prints as "null"). -/
def codeText : Option Int → String
  | some c => toString c
  | none => "null"

/-- The `Error.message` each rejection path constructs. The timeout message
differs between variants, so it is passed in. -/
def procErrorMessage (timeoutMsg : String) : ProcError → String
  | .execFailed code out err =>
    "Command failed with exit code " ++ codeText code ++ ".\nStdout: " ++ out
      ++ "\nStderr: " ++ err
  | .spawnFailed m => "Failed to spawn process: " ++ m
  | .timedOut => timeoutMsg

def TIMEOUT_MSG_RICH : String := "Command timed out after 5 minutes"

def TIMEOUT_MSG_MIN : String := "Command timed out after 60 seconds"

/-- The success payload text both variants build from the resolved result. -/
def renderSuccess (r : ProcSuccess) : String :=
  "Image generation completed successfully!\n\nCommand executed: " ++ r.command
    ++ "\n\nOutput:\n" ++ r.stdout
    ++ (if r.stderr ≠ "" then "\n\nErrors/Warnings:\n" ++ r.stderr else "")

/-- `catch (error) { throw new McpError(ErrorCode.InternalError, ...) }`. -/
def wrapProcError (timeoutMsg : String) (e : ProcError) : McpError :=
  ⟨.internalError, "Failed to generate image: " ++ procErrorMessage timeoutMsg e⟩

/-- Lift a settled (or still pending) machine state to the handler's outcome. -/
def renderOutcome (timeoutMsg : String) (st : RunState) : Option CallResult :=
  st.settled.map fun
    | .ok s => .success (renderSuccess s)
    | .fail e => .failure (wrapProcError timeoutMsg e)

/-! ## The rich variant's `handleGenerateImage`: validation, probe, spawn -/

/-- Side effects a call performs, in order. Only operations actually
attempted are recorded. -/
inductive FsEffect where
  | mkdir (dir : String)
  | writeFile (path : String)
  | readFile (path : String)
  | unlinkFile (path : String)
  | spawnProc (cmd : String) (args : List String)
deriving DecidableEq, Repr

/-- Outcomes of the three filesystem calls the writability probe makes:
`none` means success, `some msg` means the call throws with `error.message
= msg`. -/
structure FsEnv where
  mkdirErr : Option String
  writeErr : Option String
  unlinkErr : Option String
deriving DecidableEq, Repr

/-- The probe file name, `test-write-${Date.now()}.tmp` joined to the
output directory. -/
def probeFile (output_dir : String) (now : Nat) : String :=
  output_dir ++ "/test-write-" ++ toString now ++ ".tmp"

/-- Whether the probe file still exists on disk after the probe ran: it was
written successfully and the unlink then failed. -/
def probeFileLeftBehind (fs : FsEnv) : Bool :=
  fs.mkdirErr = none && fs.writeErr = none && fs.unlinkErr ≠ none

/-- Validation error messages, verbatim from the source. -/
def MSG_PROMPT_REQUIRED : String := "Prompt is required for image generation"

def MSG_OUTPUT_DIR_REQUIRED : String :=
  "Output directory is required for image generation"

def MSG_OUTPUT_DIR_RELATIVE : String :=
  "Output directory must be an absolute path, not a relative path"

def notWritableMsg (m : String) : String :=
  "Output directory is not writable: " ++ m

/-- The relative-path test: `output_dir.startsWith('.') ||
!output_dir.startsWith('/')`. -/
def isRelativePath (od : String) : Bool :=
  jsStartsWith od "." || !jsStartsWith od "/"

/-- The rich variant's `handleGenerateImage`, over an arguments object, a
filesystem oracle, the current clock (`Date.now()`), the environment
credential and the subprocess behavior. Returns the call outcome (`none`
only if the subprocess promise never settles) and the effect trace. -/
def handleGenerateImage (fs : FsEnv) (now : Nat) (apiKey : Option String)
    (b : ProcBehavior) (args : Args) : Option CallResult × List FsEffect :=
  let prompt := getArg args "prompt"
  let size := (getArg args "size").getD "1024x1024"
  let model := getArg args "model"
  let output := getArg args "output"
  let output_dir := getArg args "output_dir"
  if !truthy prompt then
    (some (.failure ⟨.invalidParams, MSG_PROMPT_REQUIRED⟩), [])
  else if !truthy output_dir then
    (some (.failure ⟨.invalidParams, MSG_OUTPUT_DIR_REQUIRED⟩), [])
  else
    let od := output_dir.getD ""
    if isRelativePath od then
      (some (.failure ⟨.invalidParams, MSG_OUTPUT_DIR_RELATIVE⟩), [])
    else
      match fs.mkdirErr with
      | some m => (some (.failure ⟨.invalidParams, notWritableMsg m⟩), [.mkdir od])
      | none =>
        let tf := probeFile od now
        match fs.writeErr with
        | some m =>
          (some (.failure ⟨.invalidParams, notWritableMsg m⟩),
           [.mkdir od, .writeFile tf])
        | none =>
          match fs.unlinkErr with
          | some m =>
            (some (.failure ⟨.invalidParams, notWritableMsg m⟩),
             [.mkdir od, .writeFile tf, .unlinkFile tf])
          | none =>
            let p : GenParams :=
              { prompt := prompt.getD "", size := size, model := model,
                output := output, output_dir := output_dir }
            let st := executeAIImageCommand apiKey p b
            (renderOutcome TIMEOUT_MSG_RICH st,
             [.mkdir od, .writeFile tf, .unlinkFile tf,
              .spawnProc "npx" (buildArgsRich p apiKey)])

/-- The minimal variant's `handleGenerateImage`: prompt check, then straight
to the subprocess (no output-directory handling at all). -/
def handleGenerateImageMin (b : ProcBehavior) (args : Args) :
    Option CallResult × List FsEffect :=
  let prompt := getArg args "prompt"
  let size := (getArg args "size").getD "1024x1024"
  if !truthy prompt then
    (some (.failure ⟨.invalidParams, MSG_PROMPT_REQUIRED⟩), [])
  else
    let p : GenParamsMin :=
      { prompt := prompt.getD "", size := size, model := getArg args "model",
        output := getArg args "output", style := getArg args "style" }
    let st := executeAIImageCommandMin p b
    (renderOutcome TIMEOUT_MSG_MIN st, [.spawnProc "npx" (buildArgsMin p)])

/-! ## Spec-side definitions used for refinement comparison -/

/-- An optional parameter as the spec's "given": a value the caller actually
supplied (JS-truthy). -/
def given (o : Option String) : Option String :=
  if truthy o then o else none

/-- The command-line argument order exactly as the specification enumerates
it: base subcommand, `--prompt`, `--size`, then `--model` / `--output` /
`--output-dir` each only if given, and finally `--api-key` only if a
credential is present. Written from the spec's words, to be compared with
the source's builders. -/
def specOrderedArgs (prompt size : String)
    (model output output_dir apiKey : Option String) : List String :=
  ["ai-image", "generate", "--prompt", prompt, "--size", size]
    ++ (match model with | some m => ["--model", m] | none => [])
    ++ (match output with | some o => ["--output", o] | none => [])
    ++ (match output_dir with | some d => ["--output-dir", d] | none => [])
    ++ (match apiKey with | some k => ["--api-key", k] | none => [])

/-- Whether an effect trace contains any file read. -/
def hasReadEffect (l : List FsEffect) : Bool :=
  l.any fun e => match e with | .readFile _ => true | _ => false

/-- The one behavior on which the `error` handler settles the promise with
no `close` event ever arriving. -/
def isSpawnFailNoClose : ProcBehavior → Bool
  | .spawnFail _ false => true
  | _ => false

/-! ## Helper lemmas -/

/-- Substring containment, by explicit decomposition. -/
def strContains (hay needle : String) : Prop :=
  ∃ a b : String, hay = a ++ needle ++ b

theorem getArg_setArg (a : Args) (k v k' : String) :
    getArg (setArg a k v) k' = if k' = k then some v else getArg a k' := by
  unfold getArg setArg
  induction a with
  | nil =>
    simp only [List.filter_nil, List.nil_append]
    by_cases h : k' = k
    · subst h; simp [List.find?]
    · have hb : (k == k') = false := by
        simp only [beq_eq_false_iff_ne, ne_eq]
        exact fun hh => h hh.symm
      simp [List.find?, hb, h]
  | cons hd tl ih =>
    simp only [List.filter_cons]
    by_cases h1 : hd.1 = k
    · have hb : (hd.1 != k) = false := by simp [bne, h1]
      rw [hb, if_neg (by simp), ih]
      by_cases h3 : k' = k
      · simp [h3]
      · have hb2 : ¬((fun p => p.1 == k') hd = true) := by
          simp only [beq_iff_eq]
          exact fun hh => h3 (hh ▸ h1 ▸ rfl : k' = k)
        rw [if_neg h3, if_neg h3, List.find?_cons_of_neg tl hb2]
    · have hb : (hd.1 != k) = true := by simp [bne_iff_ne]; exact h1
      rw [hb, if_pos rfl, List.cons_append]
      by_cases h2 : hd.1 = k'
      · have hbp : ((fun p => p.1 == k') hd = true) := by
          simp only [beq_iff_eq]; exact h2
        rw [@List.find?_cons_of_pos _ (fun p => p.1 == k') hd _ hbp,
          @List.find?_cons_of_pos _ (fun p => p.1 == k') hd tl hbp]
        have h3 : ¬(k' = k) := fun hh => h1 (h2.trans hh)
        rw [if_neg h3]
      · have hbn : ¬((fun p => p.1 == k') hd = true) := by
          simp only [beq_iff_eq]; exact h2
        rw [@List.find?_cons_of_neg _ (fun p => p.1 == k') hd _ hbn,
          @List.find?_cons_of_neg _ (fun p => p.1 == k') hd tl hbn, ih]

theorem joinSpace_append_last (xs : List String) (y : String) (h : xs ≠ []) :
    joinSpace (xs ++ [y]) = joinSpace xs ++ " " ++ y := by
  induction xs with
  | nil => exact absurd rfl h
  | cons x xs ih =>
    cases xs with
    | nil => simp [joinSpace]
    | cons z zs =>
      have hzz := ih (by simp)
      rw [show (x :: z :: zs) ++ [y] = x :: ((z :: zs) ++ [y]) from rfl]
      rw [show joinSpace (x :: (z :: zs ++ [y])) =
            x ++ " " ++ joinSpace (z :: zs ++ [y]) from rfl]
      rw [show joinSpace (x :: z :: zs) = x ++ " " ++ joinSpace (z :: zs) from rfl]
      rw [hzz]
      simp [String.append_assoc]

theorem foldl_append_str (init : String) (l : List String) :
    l.foldl (· ++ ·) init = init ++ concatChunks l := by
  induction l generalizing init with
  | nil => simp [concatChunks, String.append_empty]
  | cons x xs ih =>
    show xs.foldl (· ++ ·) (init ++ x) = init ++ concatChunks (x :: xs)
    rw [ih (init ++ x)]
    rw [show concatChunks (x :: xs) = xs.foldl (· ++ ·) ("" ++ x) from rfl]
    rw [ih ("" ++ x), String.empty_append, String.append_assoc]

theorem concatChunks_cons (x : String) (xs : List String) :
    concatChunks (x :: xs) = x ++ concatChunks xs := by
  rw [show concatChunks (x :: xs) = xs.foldl (· ++ ·) ("" ++ x) from rfl]
  rw [foldl_append_str, String.empty_append]

/-- Data events only append to the stream accumulators. -/
theorem runEvents_data (cmd : String) (outs errs : List String) (st : RunState) :
    runEvents cmd st (outs.map PEvent.dataOut ++ errs.map PEvent.dataErr) =
      { st with stdoutAcc := st.stdoutAcc ++ concatChunks outs,
                stderrAcc := st.stderrAcc ++ concatChunks errs } := by
  induction outs generalizing st with
  | nil =>
    induction errs generalizing st with
    | nil => simp [runEvents, concatChunks, String.append_empty]
    | cons e es ihe =>
      simp only [runEvents, List.map_nil, List.map_cons, List.nil_append,
        List.foldl_cons] at ihe ⊢
      rw [show step cmd st (PEvent.dataErr e) =
            { st with stderrAcc := st.stderrAcc ++ e } from rfl]
      rw [ihe]
      rw [concatChunks_cons, String.append_assoc]
  | cons o os iho =>
    simp only [runEvents, List.map_cons, List.cons_append, List.foldl_cons] at iho ⊢
    rw [show step cmd st (PEvent.dataOut o) =
          { st with stdoutAcc := st.stdoutAcc ++ o } from rfl]
    rw [iho]
    rw [concatChunks_cons, String.append_assoc]

/-- Cancelling equal surroundings of a string: the middle parts agree. -/
theorem str_append_mid_inj (a b k1 k2 : String)
    (h : a ++ k1 ++ b = a ++ k2 ++ b) : k1 = k2 := by
  have hd : a.data ++ k1.data ++ b.data = a.data ++ k2.data ++ b.data := by
    have h2 := congrArg String.data h
    simpa only [String.data_append] using h2
  have hd' : a.data ++ (k1.data ++ b.data) = a.data ++ (k2.data ++ b.data) := by
    rw [← List.append_assoc, ← List.append_assoc]; exact hd
  have h1 : k1.data ++ b.data = k2.data ++ b.data := List.append_cancel_left hd'
  exact String.ext (List.append_cancel_right h1)

theorem truthy_some (o : Option String) (h : truthy o = true) :
    o = some (o.getD "") := by
  cases o with
  | none => simp [truthy] at h
  | some s => simp

theorem given_truthy (o : Option String) (h : truthy o = true) : given o = o := by
  simp [given, h]

theorem given_falsy (o : Option String) (h : truthy o = false) : given o = none := by
  simp [given, h]

/-! ## Run lemmas: the machine's final state for each behavior -/

/-- A natural close before the watchdog deadline: the promise settles by exit
code on the trimmed (success) or raw (failure) accumulators, both timers end
up cancelled, and no signal is ever sent. -/
theorem run_closes_early (cmd : String) (b0 : Bool) (T t : Nat) (code : Option Int)
    (outs errs : List String) (h : t < T) :
    runEvents cmd (initState b0) (traceOf T (.closes t code outs errs)) =
      { settled := some (if code = some 0 then
            .ok ⟨cmd, jsTrim (concatChunks outs), jsTrim (concatChunks errs), code⟩
          else .fail (.execFailed code (concatChunks outs) (concatChunks errs))),
        stdoutAcc := concatChunks outs, stderrAcc := concatChunks errs,
        intervalActive := false, watchdogActive := false, signals := [] } := by
  have htr : traceOf T (.closes t code outs errs) =
      (outs.map PEvent.dataOut ++ errs.map PEvent.dataErr) ++ [.close code] := by
    simp [traceOf, h]
  rw [htr]
  have hsplit : runEvents cmd (initState b0)
      ((outs.map PEvent.dataOut ++ errs.map PEvent.dataErr) ++ [.close code]) =
      runEvents cmd (runEvents cmd (initState b0)
        (outs.map PEvent.dataOut ++ errs.map PEvent.dataErr)) [.close code] := by
    simp [runEvents, List.foldl_append]
  rw [hsplit, runEvents_data]
  by_cases hc : code = some 0 <;>
    simp [runEvents, step, settle, hc, initState, String.empty_append]

/-- The watchdog fires (the child did not close in time): the promise settles
with the timeout error, SIGTERM is sent, and the late close of the killed
child is absorbed without further effect. -/
theorem run_timeout (cmd : String) (b0 : Bool) (outs errs : List String) :
    runEvents cmd (initState b0)
      (outs.map PEvent.dataOut ++ errs.map PEvent.dataErr ++ [.watchdog, .close none]) =
      { settled := some (.fail .timedOut),
        stdoutAcc := concatChunks outs, stderrAcc := concatChunks errs,
        intervalActive := false, watchdogActive := false,
        signals := ["SIGTERM"] } := by
  have hsplit : runEvents cmd (initState b0)
      (outs.map PEvent.dataOut ++ errs.map PEvent.dataErr ++ [.watchdog, .close none]) =
      runEvents cmd (runEvents cmd (initState b0)
        (outs.map PEvent.dataOut ++ errs.map PEvent.dataErr)) [.watchdog, .close none] := by
    simp [runEvents, List.foldl_append]
  rw [hsplit, runEvents_data]
  simp [runEvents, step, settle, initState, String.empty_append]

/-- Spawn failure: the promise rejects at the `error` event, which clears
only the progress interval; the watchdog is disarmed afterwards only if the
platform also delivers a `close` event. -/
theorem run_spawnFail (cmd : String) (b0 : Bool) (T : Nat) (msg : String) (cf : Bool) :
    runEvents cmd (initState b0) (traceOf T (.spawnFail msg cf)) =
      { settled := some (.fail (.spawnFailed msg)), stdoutAcc := "", stderrAcc := "",
        intervalActive := false, watchdogActive := !cf, signals := [] } := by
  cases cf <;> simp [traceOf, runEvents, step, settle, initState]

/-- The hang behavior's trace is exactly the timeout trace. -/
theorem traceOf_hangs (T : Nat) (outs errs : List String) :
    traceOf T (.hangs outs errs) =
      outs.map PEvent.dataOut ++ errs.map PEvent.dataErr ++ [.watchdog, .close none] := by
  simp [traceOf]

/-! ## The claims -/

/-- C1: every size-shortcut call is routed to the generic generation handler
with `size` forced to its preset (1024x1024, 1536x1024 or 1024x1536), every
other caller-supplied argument unchanged, any caller-supplied `size`
discarded. -/
theorem shortcut_forces_preset_size (args : Args) (name preset : String)
    (h : (name, preset) ∈ [("square_image", "1024x1024"),
      ("landscape_image", "1536x1024"), ("portrait_image", "1024x1536")]) :
    ∃ a', routeCall name args = .generate a' ∧ getArg a' "size" = some preset ∧
      ∀ k, k ≠ "size" → getArg a' k = getArg args k := by
  have hsize : getArg (setArg args "size" preset) "size" = some preset := by
    rw [getArg_setArg]; simp
  have hother : ∀ k : String, k ≠ "size" →
      getArg (setArg args "size" preset) k = getArg args k := by
    intro k hk; rw [getArg_setArg, if_neg hk]
  simp only [List.mem_cons, List.not_mem_nil, or_false, Prod.mk.injEq] at h
  refine ⟨setArg args "size" preset, ?_, hsize, hother⟩
  rcases h with ⟨h1, h2⟩ | ⟨h1, h2⟩ | ⟨h1, h2⟩ <;> subst h1 <;> subst h2 <;> rfl

theorem shortcut_forces_preset_size_witness :
    (("square_image", "1024x1024") ∈ [("square_image", "1024x1024"),
      ("landscape_image", "1536x1024"), ("portrait_image", "1024x1536")]) ∧
    ∃ a', routeCall "square_image" [("prompt", "p"), ("size", "512x512")] =
        .generate a' ∧ getArg a' "size" = some "1024x1024" ∧
      ∀ k, k ≠ "size" →
        getArg a' k = getArg [("prompt", "p"), ("size", "512x512")] k :=
  ⟨by decide,
   shortcut_forces_preset_size [("prompt", "p"), ("size", "512x512")]
     "square_image" "1024x1024" (by decide)⟩

/-- C2: a call with a missing or empty `prompt` fails with an InvalidParams
error in both variants, with an empty effect trace: no subprocess is spawned
and no filesystem operation is performed. -/
theorem missing_prompt_rejected (fs : FsEnv) (now : Nat) (apiKey : Option String)
    (b : ProcBehavior) (args : Args)
    (h : truthy (getArg args "prompt") = false) :
    handleGenerateImage fs now apiKey b args =
      (some (.failure ⟨.invalidParams, MSG_PROMPT_REQUIRED⟩), []) ∧
    handleGenerateImageMin b args =
      (some (.failure ⟨.invalidParams, MSG_PROMPT_REQUIRED⟩), []) := by
  constructor <;> simp [handleGenerateImage, handleGenerateImageMin, h]

theorem missing_prompt_rejected_witness :
    truthy (getArg [("output_dir", "/tmp/x")] "prompt") = false ∧
    handleGenerateImage ⟨none, none, none⟩ 0 none (.hangs [] [])
        [("output_dir", "/tmp/x")] =
      (some (.failure ⟨.invalidParams, MSG_PROMPT_REQUIRED⟩), []) ∧
    handleGenerateImageMin (.hangs [] []) [("output_dir", "/tmp/x")] =
      (some (.failure ⟨.invalidParams, MSG_PROMPT_REQUIRED⟩), []) :=
  ⟨by decide,
   (missing_prompt_rejected ⟨none, none, none⟩ 0 none (.hangs [] [])
     [("output_dir", "/tmp/x")] (by decide)).1,
   (missing_prompt_rejected ⟨none, none, none⟩ 0 none (.hangs [] [])
     [("output_dir", "/tmp/x")] (by decide)).2⟩

/-- C4: a call whose `output_dir` is relative or missing fails with an
InvalidParams error and an empty effect trace — no directory creation, no
probe write, no subprocess. -/
theorem relative_output_dir_rejected (fs : FsEnv) (now : Nat)
    (apiKey : Option String) (b : ProcBehavior) (args : Args)
    (h : truthy (getArg args "output_dir") = false ∨
      isRelativePath ((getArg args "output_dir").getD "") = true) :
    ∃ msg, handleGenerateImage fs now apiKey b args =
      (some (.failure ⟨.invalidParams, msg⟩), []) := by
  by_cases hp : truthy (getArg args "prompt")
  · rcases h with h | h
    · exact ⟨MSG_OUTPUT_DIR_REQUIRED, by simp [handleGenerateImage, hp, h]⟩
    · by_cases hd : truthy (getArg args "output_dir")
      · exact ⟨MSG_OUTPUT_DIR_RELATIVE, by simp [handleGenerateImage, hp, hd, h]⟩
      · exact ⟨MSG_OUTPUT_DIR_REQUIRED, by simp [handleGenerateImage, hp, hd]⟩
  · exact ⟨MSG_PROMPT_REQUIRED,
      by simp [handleGenerateImage, eq_false_of_ne_true hp]⟩

theorem relative_output_dir_rejected_witness :
    (truthy (getArg [("prompt", "p"), ("output_dir", "relative/path")]
        "output_dir") = false ∨
      isRelativePath ((getArg [("prompt", "p"), ("output_dir", "relative/path")]
        "output_dir").getD "") = true) ∧
    ∃ msg, handleGenerateImage ⟨none, none, none⟩ 0 none (.hangs [] [])
        [("prompt", "p"), ("output_dir", "relative/path")] =
      (some (.failure ⟨.invalidParams, msg⟩), []) :=
  ⟨Or.inr (by decide),
   relative_output_dir_rejected ⟨none, none, none⟩ 0 none (.hangs [] [])
     [("prompt", "p"), ("output_dir", "relative/path")] (Or.inr (by decide))⟩

/-- C3 counterexample: on a fully successful call the probe writes and
deletes the probe file but never reads it back — the trace holds no read
effect, refuting the claimed write-read-delete probe. -/
theorem probe_has_no_read_counterexample :
    (handleGenerateImage ⟨none, none, none⟩ 5 none (.closes 10 (some 0) ["OK"] [])
        [("prompt", "p"), ("output_dir", "/tmp/x")]).2 =
      [.mkdir "/tmp/x", .writeFile "/tmp/x/test-write-5.tmp",
       .unlinkFile "/tmp/x/test-write-5.tmp",
       .spawnProc "npx" ["ai-image", "generate", "--prompt", "p", "--size",
         "1024x1024", "--output-dir", "/tmp/x"]] ∧
    hasReadEffect (handleGenerateImage ⟨none, none, none⟩ 5 none
        (.closes 10 (some 0) ["OK"] [])
        [("prompt", "p"), ("output_dir", "/tmp/x")]).2 = false := by
  exact ⟨rfl, rfl⟩

/-- C3 amended: with a valid prompt and an absolute `output_dir`, the
handler creates the directory and performs a write-delete probe (no
read-back) before spawning the subprocess; any probe failure surfaces as an
InvalidParams error embedding the filesystem error message (and the
subprocess is never spawned); on probe success the probe file is absent
afterwards. -/
theorem probe_write_delete_behavior (fs : FsEnv) (now : Nat)
    (apiKey : Option String) (b : ProcBehavior) (args : Args)
    (hp : truthy (getArg args "prompt") = true)
    (hd : truthy (getArg args "output_dir") = true)
    (hrel : isRelativePath ((getArg args "output_dir").getD "") = false) :
    (∀ m, fs.mkdirErr = some m →
        handleGenerateImage fs now apiKey b args =
          (some (.failure ⟨.invalidParams, notWritableMsg m⟩),
           [.mkdir ((getArg args "output_dir").getD "")])) ∧
    (∀ m, fs.mkdirErr = none → fs.writeErr = some m →
        handleGenerateImage fs now apiKey b args =
          (some (.failure ⟨.invalidParams, notWritableMsg m⟩),
           [.mkdir ((getArg args "output_dir").getD ""),
            .writeFile (probeFile ((getArg args "output_dir").getD "") now)])) ∧
    (∀ m, fs.mkdirErr = none → fs.writeErr = none → fs.unlinkErr = some m →
        handleGenerateImage fs now apiKey b args =
          (some (.failure ⟨.invalidParams, notWritableMsg m⟩),
           [.mkdir ((getArg args "output_dir").getD ""),
            .writeFile (probeFile ((getArg args "output_dir").getD "") now),
            .unlinkFile (probeFile ((getArg args "output_dir").getD "") now)])) ∧
    (fs.mkdirErr = none → fs.writeErr = none → fs.unlinkErr = none →
        (∃ pargs, (handleGenerateImage fs now apiKey b args).2 =
          [.mkdir ((getArg args "output_dir").getD ""),
           .writeFile (probeFile ((getArg args "output_dir").getD "") now),
           .unlinkFile (probeFile ((getArg args "output_dir").getD "") now),
           .spawnProc "npx" pargs]) ∧ probeFileLeftBehind fs = false) ∧
    hasReadEffect (handleGenerateImage fs now apiKey b args).2 = false := by
  obtain ⟨me, we, ue⟩ := fs
  refine ⟨?_, ?_, ?_, ?_, ?_⟩
  · rintro m rfl
    simp [handleGenerateImage, hp, hd, hrel]
  · rintro m rfl rfl
    simp [handleGenerateImage, hp, hd, hrel]
  · rintro m rfl rfl rfl
    simp [handleGenerateImage, hp, hd, hrel]
  · rintro rfl rfl rfl
    refine ⟨⟨buildArgsRich
      { prompt := (getArg args "prompt").getD "",
        size := (getArg args "size").getD "1024x1024",
        model := getArg args "model", output := getArg args "output",
        output_dir := getArg args "output_dir" } apiKey, ?_⟩,
      by simp [probeFileLeftBehind]⟩
    simp [handleGenerateImage, hp, hd, hrel]
  · rcases me with _ | m1 <;> rcases we with _ | m2 <;> rcases ue with _ | m3 <;>
      simp [handleGenerateImage, hp, hd, hrel, hasReadEffect]

theorem probe_write_delete_behavior_witness :
    truthy (getArg [("prompt", "p"), ("output_dir", "/tmp/x")] "prompt") = true ∧
    truthy (getArg [("prompt", "p"), ("output_dir", "/tmp/x")] "output_dir")
      = true ∧
    isRelativePath ((getArg [("prompt", "p"), ("output_dir", "/tmp/x")]
      "output_dir").getD "") = false ∧
    hasReadEffect (handleGenerateImage ⟨some "EACCES", none, none⟩ 7 none
      (.hangs [] []) [("prompt", "p"), ("output_dir", "/tmp/x")]).2 = false :=
  ⟨by decide, by decide, by decide,
   (probe_write_delete_behavior ⟨some "EACCES", none, none⟩ 7 none (.hangs [] [])
     [("prompt", "p"), ("output_dir", "/tmp/x")]
     (by decide) (by decide) (by decide)).2.2.2.2⟩

/-- C5: when the subprocess closes with exit code 0 (before the watchdog),
the runner resolves with the command line, trimmed stdout, trimmed stderr
and the exit code, and the rendered success payload contains the command
line and the trimmed stdout, with the stderr section present exactly when
the trimmed stderr is non-empty. -/
theorem success_payload (apiKey : Option String) (p : GenParams) (t : Nat)
    (outs errs : List String) (h : t < TIMEOUT_RICH) :
    (executeAIImageCommand apiKey p (.closes t (some 0) outs errs)).settled =
      some (.ok ⟨commandLine (buildArgsRich p apiKey), jsTrim (concatChunks outs),
        jsTrim (concatChunks errs), some 0⟩) ∧
    renderOutcome TIMEOUT_MSG_RICH
        (executeAIImageCommand apiKey p (.closes t (some 0) outs errs)) =
      some (.success (renderSuccess ⟨commandLine (buildArgsRich p apiKey),
        jsTrim (concatChunks outs), jsTrim (concatChunks errs), some 0⟩)) ∧
    strContains
      (renderSuccess ⟨commandLine (buildArgsRich p apiKey),
        jsTrim (concatChunks outs), jsTrim (concatChunks errs), some 0⟩)
      (commandLine (buildArgsRich p apiKey)) ∧
    strContains
      (renderSuccess ⟨commandLine (buildArgsRich p apiKey),
        jsTrim (concatChunks outs), jsTrim (concatChunks errs), some 0⟩)
      (jsTrim (concatChunks outs)) ∧
    (jsTrim (concatChunks errs) ≠ "" →
      renderSuccess ⟨commandLine (buildArgsRich p apiKey),
          jsTrim (concatChunks outs), jsTrim (concatChunks errs), some 0⟩ =
        "Image generation completed successfully!\n\nCommand executed: "
          ++ commandLine (buildArgsRich p apiKey) ++ "\n\nOutput:\n"
          ++ jsTrim (concatChunks outs) ++ "\n\nErrors/Warnings:\n"
          ++ jsTrim (concatChunks errs)) ∧
    (jsTrim (concatChunks errs) = "" →
      renderSuccess ⟨commandLine (buildArgsRich p apiKey),
          jsTrim (concatChunks outs), jsTrim (concatChunks errs), some 0⟩ =
        "Image generation completed successfully!\n\nCommand executed: "
          ++ commandLine (buildArgsRich p apiKey) ++ "\n\nOutput:\n"
          ++ jsTrim (concatChunks outs)) := by
  have hrun := run_closes_early (commandLine (buildArgsRich p apiKey)) true
    TIMEOUT_RICH t (some 0) outs errs h
  have hex : executeAIImageCommand apiKey p (.closes t (some 0) outs errs) =
      { settled := some (.ok ⟨commandLine (buildArgsRich p apiKey),
          jsTrim (concatChunks outs), jsTrim (concatChunks errs), some 0⟩),
        stdoutAcc := concatChunks outs, stderrAcc := concatChunks errs,
        intervalActive := false, watchdogActive := false, signals := [] } := by
    rw [executeAIImageCommand, hrun]
    simp
  refine ⟨by rw [hex], by rw [hex]; rfl, ?_, ?_, ?_, ?_⟩
  · exact ⟨"Image generation completed successfully!\n\nCommand executed: ",
      "\n\nOutput:\n" ++ jsTrim (concatChunks outs)
        ++ (if jsTrim (concatChunks errs) ≠ "" then
              "\n\nErrors/Warnings:\n" ++ jsTrim (concatChunks errs) else ""),
      by simp [renderSuccess, String.append_assoc]⟩
  · exact ⟨"Image generation completed successfully!\n\nCommand executed: "
        ++ commandLine (buildArgsRich p apiKey) ++ "\n\nOutput:\n",
      (if jsTrim (concatChunks errs) ≠ "" then
          "\n\nErrors/Warnings:\n" ++ jsTrim (concatChunks errs) else ""),
      by simp [renderSuccess, String.append_assoc]⟩
  · intro hne
    simp [renderSuccess, hne, String.append_assoc]
  · intro heq
    simp [renderSuccess, heq, String.append_empty]

theorem success_payload_witness :
    2 < TIMEOUT_RICH ∧
    (executeAIImageCommand none ⟨"p", "1024x1024", none, none, some "/tmp/x"⟩
        (.closes 2 (some 0) ["OK"] [])).settled =
      some (.ok ⟨commandLine (buildArgsRich
          ⟨"p", "1024x1024", none, none, some "/tmp/x"⟩ none),
        jsTrim (concatChunks ["OK"]), jsTrim (concatChunks []), some 0⟩) :=
  ⟨by decide,
   (success_payload none ⟨"p", "1024x1024", none, none, some "/tmp/x"⟩ 2
     ["OK"] [] (by decide)).1⟩

/-- C6: when the subprocess closes with a non-zero exit code (before the
watchdog), the call fails with an InternalError whose message contains the
exit code and the full untrimmed accumulated stdout and stderr. -/
theorem failure_embeds_outputs (apiKey : Option String) (p : GenParams)
    (t : Nat) (outs errs : List String) (c : Int) (hc : c ≠ 0)
    (h : t < TIMEOUT_RICH) :
    (executeAIImageCommand apiKey p (.closes t (some c) outs errs)).settled =
      some (.fail (.execFailed (some c) (concatChunks outs)
        (concatChunks errs))) ∧
    renderOutcome TIMEOUT_MSG_RICH
        (executeAIImageCommand apiKey p (.closes t (some c) outs errs)) =
      some (.failure (wrapProcError TIMEOUT_MSG_RICH
        (.execFailed (some c) (concatChunks outs) (concatChunks errs)))) ∧
    (wrapProcError TIMEOUT_MSG_RICH (.execFailed (some c) (concatChunks outs)
      (concatChunks errs))).code = .internalError ∧
    strContains (wrapProcError TIMEOUT_MSG_RICH (.execFailed (some c)
        (concatChunks outs) (concatChunks errs))).message (toString c) ∧
    strContains (wrapProcError TIMEOUT_MSG_RICH (.execFailed (some c)
        (concatChunks outs) (concatChunks errs))).message (concatChunks outs) ∧
    strContains (wrapProcError TIMEOUT_MSG_RICH (.execFailed (some c)
        (concatChunks outs) (concatChunks errs))).message (concatChunks errs) := by
  have hcc : ¬((some c : Option Int) = some 0) := by
    simp only [Option.some.injEq]
    exact hc
  have hrun := run_closes_early (commandLine (buildArgsRich p apiKey)) true
    TIMEOUT_RICH t (some c) outs errs h
  have hex : executeAIImageCommand apiKey p (.closes t (some c) outs errs) =
      { settled := some (.fail (.execFailed (some c) (concatChunks outs)
          (concatChunks errs))),
        stdoutAcc := concatChunks outs, stderrAcc := concatChunks errs,
        intervalActive := false, watchdogActive := false, signals := [] } := by
    rw [executeAIImageCommand, hrun]
    simp [hcc]
  refine ⟨by rw [hex], by rw [hex]; rfl, rfl, ?_, ?_, ?_⟩
  · exact ⟨"Failed to generate image: " ++ "Command failed with exit code ",
      ".\nStdout: " ++ concatChunks outs ++ ("\nStderr: " ++ concatChunks errs),
      by simp [wrapProcError, procErrorMessage, codeText, String.append_assoc]
         try rfl⟩
  · exact ⟨"Failed to generate image: " ++ ("Command failed with exit code "
        ++ toString c ++ ".\nStdout: "),
      "\nStderr: " ++ concatChunks errs,
      by simp [wrapProcError, procErrorMessage, codeText, String.append_assoc]
         try rfl⟩
  · exact ⟨"Failed to generate image: " ++ ("Command failed with exit code "
        ++ toString c ++ ".\nStdout: " ++ concatChunks outs ++ "\nStderr: "),
      "",
      by simp [wrapProcError, procErrorMessage, codeText, String.append_assoc,
        String.append_empty]
         try rfl⟩

theorem failure_embeds_outputs_witness :
    (1 : Int) ≠ 0 ∧ 2 < TIMEOUT_RICH ∧
    (executeAIImageCommand none ⟨"p", "1024x1024", none, none, some "/tmp/x"⟩
        (.closes 2 (some 1) ["boom"] ["err"])).settled =
      some (.fail (.execFailed (some 1) (concatChunks ["boom"])
        (concatChunks ["err"]))) :=
  ⟨by decide, by decide,
   (failure_embeds_outputs none ⟨"p", "1024x1024", none, none, some "/tmp/x"⟩ 2
     ["boom"] ["err"] 1 (by decide) (by decide)).1⟩

/-- C7 counterexample: a minimal-variant invocation with a `style` argument
produces an argument list that no instantiation of the claimed exact order
(base, `--prompt`, `--size`, `--model?`, `--output?`, `--output-dir?`,
`--api-key?`) can equal — the claimed enumeration omits `--style`. -/
theorem arg_order_min_style_counterexample :
    ¬ ∃ (m o od k : Option String),
      specOrderedArgs "p" "1024x1024" m o od k =
        buildArgsMin ⟨"p", "1024x1024", none, none, some "vivid"⟩ := by
  have hb : buildArgsMin ⟨"p", "1024x1024", none, none, some "vivid"⟩ =
      ["ai-image", "generate", "--prompt", "p", "--size", "1024x1024",
       "--style", "vivid"] := by rfl
  rintro ⟨m, o, od, k, h⟩
  rw [hb] at h
  rcases m with _ | m <;> rcases o with _ | o <;> rcases od with _ | od <;>
    rcases k with _ | k <;> simp [specOrderedArgs] at h

/-- C7 amended: the rich variant's list follows the claimed exact order
(base subcommand, `--prompt`, `--size`, then `--model`, `--output`,
`--output-dir` each only if given, then `--api-key` only if a credential is
present); the minimal variant follows the same order with no `--output-dir`
and no `--api-key`, and a trailing `--style` only if a style was given. -/
theorem arg_order_refines_spec :
    (∀ (p : GenParams) (apiKey : Option String),
      buildArgsRich p apiKey = specOrderedArgs p.prompt p.size (given p.model)
        (given p.output) (given p.output_dir) (given apiKey)) ∧
    (∀ p : GenParamsMin,
      buildArgsMin p = specOrderedArgs p.prompt p.size (given p.model)
          (given p.output) none none
        ++ (match given p.style with
            | some s => ["--style", s] | none => [])) := by
  have hopt : ∀ (o : Option String) (flag : String),
      (if truthy o then [flag, o.getD ""] else []) =
        (match given o with | some s => [flag, s] | none => []) := by
    intro o flag
    by_cases ht : truthy o
    · rw [if_pos ht, given_truthy o ht, truthy_some o ht]
      rfl
    · rw [if_neg ht, given_falsy o (eq_false_of_ne_true ht)]
  constructor
  · intro p apiKey
    simp only [buildArgsRich, specOrderedArgs, hopt]
  · intro p
    simp only [buildArgsMin, specOrderedArgs, hopt]
    simp [List.append_assoc]

/-- C8: if the child has not exited by the watchdog deadline (5 minutes
rich, 60 seconds minimal), the watchdog sends SIGTERM and the call fails
with the timeout error; a child that closes before the deadline never
receives a watchdog signal. -/
theorem watchdog_kills_and_times_out :
    (∀ (apiKey : Option String) (p : GenParams) (outs errs : List String),
      (executeAIImageCommand apiKey p (.hangs outs errs)).settled =
          some (.fail .timedOut) ∧
      (executeAIImageCommand apiKey p (.hangs outs errs)).signals =
          ["SIGTERM"] ∧
      renderOutcome TIMEOUT_MSG_RICH
          (executeAIImageCommand apiKey p (.hangs outs errs)) =
        some (.failure ⟨.internalError,
          "Failed to generate image: Command timed out after 5 minutes"⟩)) ∧
    (∀ (apiKey : Option String) (p : GenParams) (t : Nat) (code : Option Int)
        (outs errs : List String), t < TIMEOUT_RICH →
      (executeAIImageCommand apiKey p (.closes t code outs errs)).signals = []) ∧
    (∀ (p : GenParamsMin) (outs errs : List String),
      (executeAIImageCommandMin p (.hangs outs errs)).settled =
          some (.fail .timedOut) ∧
      (executeAIImageCommandMin p (.hangs outs errs)).signals = ["SIGTERM"] ∧
      renderOutcome TIMEOUT_MSG_MIN
          (executeAIImageCommandMin p (.hangs outs errs)) =
        some (.failure ⟨.internalError,
          "Failed to generate image: Command timed out after 60 seconds"⟩)) ∧
    (∀ (p : GenParamsMin) (t : Nat) (code : Option Int)
        (outs errs : List String), t < TIMEOUT_MIN →
      (executeAIImageCommandMin p (.closes t code outs errs)).signals = []) := by
  refine ⟨?_, ?_, ?_, ?_⟩
  · intro apiKey p outs errs
    rw [executeAIImageCommand, traceOf_hangs, run_timeout]
    exact ⟨rfl, rfl, rfl⟩
  · intro apiKey p t code outs errs ht
    rw [executeAIImageCommand, run_closes_early _ _ _ _ _ _ _ ht]
  · intro p outs errs
    rw [executeAIImageCommandMin, traceOf_hangs, run_timeout]
    exact ⟨rfl, rfl, rfl⟩
  · intro p t code outs errs ht
    rw [executeAIImageCommandMin, run_closes_early _ _ _ _ _ _ _ ht]

theorem watchdog_kills_and_times_out_witness :
    5 < TIMEOUT_RICH ∧
    (executeAIImageCommand none ⟨"p", "1024x1024", none, none, some "/tmp/x"⟩
        (.closes 5 (some 0) [] [])).signals = [] ∧
    (executeAIImageCommand none ⟨"p", "1024x1024", none, none, some "/tmp/x"⟩
        (.hangs [] [])).signals = ["SIGTERM"] :=
  ⟨by decide,
   watchdog_kills_and_times_out.2.1 none
     ⟨"p", "1024x1024", none, none, some "/tmp/x"⟩ 5 (some 0) [] [] (by decide),
   (watchdog_kills_and_times_out.1 none
     ⟨"p", "1024x1024", none, none, some "/tmp/x"⟩ [] []).2.1⟩

/-- C9 counterexample: on a spawn failure with no subsequent close event the
promise settles (rejected) while the watchdog timer is still armed — a
timer does remain active after the call settles. -/
theorem dangling_watchdog_counterexample :
    (executeAIImageCommand none ⟨"p", "1024x1024", none, none, some "/tmp/x"⟩
        (.spawnFail "spawn npx ENOENT" false)).settled =
      some (.fail (.spawnFailed "spawn npx ENOENT")) ∧
    (executeAIImageCommand none ⟨"p", "1024x1024", none, none, some "/tmp/x"⟩
        (.spawnFail "spawn npx ENOENT" false)).watchdogActive = true := by
  exact ⟨rfl, rfl⟩

/-- C9 amended: on the success, non-zero-exit and watchdog-timeout paths
both timers end up cancelled; on the spawn-failure path the progress
interval is cancelled at rejection time, but the watchdog stays armed
unless (and until) a close event also arrives. -/
theorem timers_cancelled_on_close_paths :
    ∀ (apiKey : Option String) (p : GenParams) (b : ProcBehavior),
      (executeAIImageCommand apiKey p b).intervalActive = false ∧
      (isSpawnFailNoClose b = false →
        (executeAIImageCommand apiKey p b).watchdogActive = false) ∧
      (isSpawnFailNoClose b = true →
        (executeAIImageCommand apiKey p b).settled.isSome = true ∧
        (executeAIImageCommand apiKey p b).watchdogActive = true) := by
  intro apiKey p b
  cases b with
  | closes t code outs errs =>
    by_cases ht : t < TIMEOUT_RICH
    · rw [executeAIImageCommand, run_closes_early _ _ _ _ _ _ _ ht]
      exact ⟨rfl, fun _ => rfl, fun hh => by simp [isSpawnFailNoClose] at hh⟩
    · have htr : traceOf TIMEOUT_RICH (.closes t code outs errs) =
          outs.map PEvent.dataOut ++ errs.map PEvent.dataErr
            ++ [.watchdog, .close none] := by
        simp [traceOf, ht, List.append_assoc]
      rw [executeAIImageCommand, htr, run_timeout]
      exact ⟨rfl, fun _ => rfl, fun hh => by simp [isSpawnFailNoClose] at hh⟩
  | spawnFail msg cf =>
    rw [executeAIImageCommand, run_spawnFail]
    cases cf with
    | false =>
      exact ⟨rfl, fun hh => by simp [isSpawnFailNoClose] at hh,
        fun _ => ⟨rfl, rfl⟩⟩
    | true =>
      exact ⟨rfl, fun _ => rfl, fun hh => by simp [isSpawnFailNoClose] at hh⟩
  | hangs outs errs =>
    rw [executeAIImageCommand, traceOf_hangs, run_timeout]
    exact ⟨rfl, fun _ => rfl, fun hh => by simp [isSpawnFailNoClose] at hh⟩

theorem timers_cancelled_on_close_paths_witness :
    isSpawnFailNoClose (.hangs [] []) = false ∧
    (executeAIImageCommand none ⟨"p", "1024x1024", none, none, some "/tmp/x"⟩
        (.hangs [] [])).watchdogActive = false :=
  ⟨by decide,
   (timers_cancelled_on_close_paths none
     ⟨"p", "1024x1024", none, none, some "/tmp/x"⟩ (.hangs [] [])).2.1
     (by decide)⟩

/-- With a non-empty key, the `--api-key` pair is appended last. -/
theorem buildArgsRich_some_key (p : GenParams) (key : String) (hk : key ≠ "") :
    buildArgsRich p (some key) = buildArgsRich p none ++ ["--api-key", key] := by
  have ht : truthy (some key) = true := by simp [truthy, hk]
  have hf : truthy (none : Option String) = false := rfl
  simp [buildArgsRich, ht, hf, List.append_assoc]

/-- The key is a suffix of the logged command line. -/
theorem commandLine_key_decomp (p : GenParams) (key : String) (hk : key ≠ "") :
    commandLine (buildArgsRich p (some key)) =
      ("npx " ++ joinSpace (buildArgsRich p none ++ ["--api-key"]) ++ " ")
        ++ key := by
  rw [buildArgsRich_some_key p key hk]
  have h1 : buildArgsRich p none ++ ["--api-key", key] =
      (buildArgsRich p none ++ ["--api-key"]) ++ [key] := by simp
  rw [h1, commandLine, joinSpace_append_last _ key
    (List.append_ne_nil_of_right_ne_nil _ (by simp))]
  simp [String.append_assoc]

/-- The success payload decomposed around the credential. -/
theorem payload_key_decomp (p : GenParams) (key so se : String) (hk : key ≠ "") :
    renderSuccess ⟨commandLine (buildArgsRich p (some key)), so, se, some 0⟩ =
      ("Image generation completed successfully!\n\nCommand executed: "
          ++ ("npx " ++ joinSpace (buildArgsRich p none ++ ["--api-key"]) ++ " "))
        ++ key
        ++ ("\n\nOutput:\n" ++ so
            ++ (if se ≠ "" then "\n\nErrors/Warnings:\n" ++ se else "")) := by
  simp only [renderSuccess]
  rw [commandLine_key_decomp p key hk]
  simp [String.append_assoc]

/-- C10: in the key-forwarding variant a present environment credential is
embedded in clear text in the success payload: the payload contains the key
as a substring, and two runs identical except for the credential value
produce different payload texts. -/
theorem api_key_leaks_into_payload :
    (∀ (key : String) (r : Option String), key ≠ "" →
      effectiveApiKey (some key) r = some key) ∧
    (∀ key : String, key ≠ "" →
      effectiveApiKey none (some key) = some key) ∧
    (∀ (key : String) (p : GenParams) (t : Nat) (outs errs : List String),
      key ≠ "" → t < TIMEOUT_RICH →
      renderOutcome TIMEOUT_MSG_RICH
          (executeAIImageCommand (some key) p (.closes t (some 0) outs errs)) =
        some (.success (renderSuccess ⟨commandLine (buildArgsRich p (some key)),
          jsTrim (concatChunks outs), jsTrim (concatChunks errs), some 0⟩)) ∧
      strContains
        (renderSuccess ⟨commandLine (buildArgsRich p (some key)),
          jsTrim (concatChunks outs), jsTrim (concatChunks errs), some 0⟩)
        key) ∧
    (∀ (key1 key2 : String) (p : GenParams) (so se : String),
      key1 ≠ "" → key2 ≠ "" → key1 ≠ key2 →
      renderSuccess ⟨commandLine (buildArgsRich p (some key1)), so, se, some 0⟩ ≠
        renderSuccess ⟨commandLine (buildArgsRich p (some key2)), so, se,
          some 0⟩) := by
  refine ⟨?_, ?_, ?_, ?_⟩
  · intro key r hk
    simp [effectiveApiKey, truthy, hk]
  · intro key hk
    simp [effectiveApiKey, truthy, hk]
  · intro key p t outs errs hk ht
    have hrun := run_closes_early (commandLine (buildArgsRich p (some key)))
      true TIMEOUT_RICH t (some 0) outs errs ht
    constructor
    · rw [executeAIImageCommand, hrun]
      simp [renderOutcome]
    · exact ⟨"Image generation completed successfully!\n\nCommand executed: "
          ++ ("npx " ++ joinSpace (buildArgsRich p none ++ ["--api-key"]) ++ " "),
        "\n\nOutput:\n" ++ jsTrim (concatChunks outs)
          ++ (if jsTrim (concatChunks errs) ≠ "" then
                "\n\nErrors/Warnings:\n" ++ jsTrim (concatChunks errs) else ""),
        payload_key_decomp p key (jsTrim (concatChunks outs))
          (jsTrim (concatChunks errs)) hk⟩
  · intro key1 key2 p so se hk1 hk2 hne heq
    rw [payload_key_decomp p key1 so se hk1,
      payload_key_decomp p key2 so se hk2] at heq
    exact hne (str_append_mid_inj _ _ _ _ heq)

theorem api_key_leaks_into_payload_witness :
    ("sk-123" : String) ≠ "" ∧ 2 < TIMEOUT_RICH ∧
    strContains
      (renderSuccess ⟨commandLine (buildArgsRich
          ⟨"p", "1024x1024", none, none, some "/tmp/x"⟩ (some "sk-123")),
        jsTrim (concatChunks ["OK"]), jsTrim (concatChunks []), some 0⟩)
      "sk-123" :=
  ⟨by decide, by decide,
   (api_key_leaks_into_payload.2.2.1 "sk-123"
     ⟨"p", "1024x1024", none, none, some "/tmp/x"⟩ 2 ["OK"] []
     (by decide) (by decide)).2⟩

end ImageMcp
